import Mathlib

/-
Verification of the client-side authentication-session lifecycle and
route-access gate of the vitejs-keycloak-demo repository.

The embedding translates the repository source files:
  - src/keycloak.ts           (namespace KeycloakMain): singleton config with
                              JS-or defaults for missing environment values
  - src/security/keycloak.ts  (namespace KeycloakSecurity): variant that
                              alerts on a missing endpoint but still constructs
  - src/main.tsx              (renderMain, startup): loading render, one init
                              call, then-branch renders App, catch-branch
                              renders the error panel
  - src/components/ProtectedRoute.tsx (ProtectedRoute): the Access Gate
  - src/components/Navbar.tsx (updateAuthState, onAuthSuccess, onAuthLogout,
                              onAuthRefreshSuccess, onAuthRefreshError,
                              onTokenExpired, stepEvent, runEvents): the
                              Session Watcher
  - src/App.tsx               (appRoutes): the route table

JS conventions are made explicit: a possibly-undefined value is an Option,
the JS truthiness of a boolean-or-undefined value is jsTruthy, the JS
or-default on a string-or-undefined value is jsOrStr (empty string is falsy),
and the JS nullish-coalescing operator on Option Bool is Option.getD.
-/

/-- Environment variables read via import.meta.env in both keycloak.ts
variants. Each is a string or undefined. -/
structure Env where
  VITE_KEYCLOAK_URL : Option String
  VITE_KEYCLOAK_REALM : Option String
  VITE_KEYCLOAK_CLIENT_ID : Option String
deriving DecidableEq

/-- JS or-default on a string-or-undefined value: undefined and the empty
string are falsy, so both fall through to the default. -/
def jsOrStr : Option String → String → String
  | none, d => d
  | some s, d => if s = "" then d else s

/-- JS truthiness of a boolean-or-undefined value: undefined is falsy. -/
def jsTruthy : Option Bool → Bool
  | none => false
  | some b => b

/-- The configuration record passed to the Keycloak constructor by
src/keycloak.ts, where every field is a definite string. -/
structure KeycloakConfig where
  url : String
  realm : String
  clientId : String
deriving DecidableEq

/-- The configuration record passed to the Keycloak constructor by
src/security/keycloak.ts, where the raw possibly-undefined environment
values are used as-is. -/
structure KeycloakConfigOpt where
  url : Option String
  realm : Option String
  clientId : Option String
deriving DecidableEq

namespace KeycloakMain

/-- src/keycloak.ts line 5: const keycloakUrl = import.meta.env.VITE_KEYCLOAK_URL || 'http://localhost:7777' -/
def keycloakUrl (env : Env) : String :=
  jsOrStr env.VITE_KEYCLOAK_URL "http://localhost:7777"

/-- src/keycloak.ts line 6: const keycloakRealm = import.meta.env.VITE_KEYCLOAK_REALM || 'viprealm' -/
def keycloakRealm (env : Env) : String :=
  jsOrStr env.VITE_KEYCLOAK_REALM "viprealm"

/-- src/keycloak.ts line 7: const keycloakClientId = import.meta.env.VITE_KEYCLOAK_CLIENT_ID || 'vipclient' -/
def keycloakClientId (env : Env) : String :=
  jsOrStr env.VITE_KEYCLOAK_CLIENT_ID "vipclient"

/-- src/keycloak.ts lines 10-14: the singleton Keycloak configuration, built
unconditionally for every environment (module evaluation never halts). -/
def keycloak (env : Env) : KeycloakConfig :=
  { url := keycloakUrl env, realm := keycloakRealm env, clientId := keycloakClientId env }

end KeycloakMain

namespace KeycloakSecurity

/-- src/security/keycloak.ts line 9: if (!keycloakUrl) alert("Error ENV not Set !").
True exactly when the alert fires, i.e. when the endpoint value is falsy
(undefined or empty). The realm and client id are never checked. -/
def secAlertShown (env : Env) : Bool :=
  match env.VITE_KEYCLOAK_URL with
  | none => true
  | some s => s = ""

/-- src/security/keycloak.ts lines 12-16: the Keycloak configuration is
constructed unconditionally, with the raw possibly-undefined values; the
alert does not halt module evaluation. -/
def keycloak (env : Env) : KeycloakConfigOpt :=
  { url := env.VITE_KEYCLOAK_URL, realm := env.VITE_KEYCLOAK_REALM,
    clientId := env.VITE_KEYCLOAK_CLIENT_ID }

end KeycloakSecurity

/-- The outcome with which the keycloak.init promise settles: resolved with
the adapter boolean, or rejected. -/
inductive InitOutcome
  | resolved (authenticated : Bool)
  | rejected
deriving DecidableEq

/-- What the root element displays at a given moment, per src/main.tsx:
the loading placeholder rendered before init settles, the App component
rendered in the then-branch (carrying the ambient adapter flag the routes
read), or the error panel rendered in the catch-branch (carrying its
heading text). -/
inductive UI
  | loading
  | app (authenticated : Option Bool)
  | errorPanel (heading : String)
deriving DecidableEq

/-- src/main.tsx lines 14-50: the UI shown as a function of the init promise
status (none while pending; some outcome once settled). The initial render
shows the loading placeholder; the then-branch re-renders with App; the
catch-branch re-renders with the error panel. -/
def renderMain : Option InitOutcome → UI
  | none => UI.loading
  | some (InitOutcome.resolved b) => UI.app (some b)
  | some InitOutcome.rejected => UI.errorPanel "Error Initializing Keycloak"

/-- Whether a UI value mounts any route content (the App component contains
BrowserRouter and Routes; the loading placeholder and the error panel
contain no routes). -/
def hasRouteContent : UI → Bool
  | UI.app _ => true
  | _ => false

/-- Whether a UI value mounts the Access Gate (the App component mounts
ProtectedRoute inside its Routes; nothing else does). -/
def mountsAccessGate : UI → Bool
  | UI.app _ => true
  | _ => false

/-- The init options object passed at src/main.tsx lines 22-26. -/
structure InitOptions where
  onLoad : String
  pkceMethod : String
deriving DecidableEq

/-- src/main.tsx: onLoad is the string literal login-required. -/
def mainInitOptions : InitOptions :=
  { onLoad := "login-required", pkceMethod := "S256" }

/-- One observable step of the src/main.tsx top-level script: a render of
the root element, or the single keycloak.init call with the configuration
the imported module built. -/
inductive MainStep
  | renderUI (u : UI)
  | callInit (cfg : KeycloakConfig) (opts : InitOptions)
deriving DecidableEq

/-- src/main.tsx lines 8-50 in order: evaluate the imported keycloak module
(which always yields a config, defaults substituted), render the loading
placeholder, call init once, and render the settled UI when the promise
settles with the given outcome. No step is conditional on the environment,
and no step repeats the init call. -/
def startup (env : Env) (o : InitOutcome) : List MainStep :=
  [ MainStep.renderUI UI.loading,
    MainStep.callInit (KeycloakMain.keycloak env) mainInitOptions,
    MainStep.renderUI (renderMain (some o)) ]

/-- Counts the init calls in a list of main steps. -/
def countInitCalls (steps : List MainStep) : Nat :=
  steps.countP fun s =>
    match s with
    | MainStep.callInit _ _ => true
    | _ => false

/-- The possible render results of the Access Gate. The loading and
redirect-with-intent constructors exist so that the specified alternatives
are expressible; the code in ProtectedRoute.tsx only ever produces
unauthorized or outlet. -/
inductive GateRender
  | loading
  | unauthorized
  | redirectLogin (fromPath : String)
  | outlet
deriving DecidableEq

/-- src/components/ProtectedRoute.tsx lines 11-32: read
keycloak.authenticated; if it is not truthy (undefined or false), render the
inline Unauthorized message; otherwise render the Outlet. There is no
loading branch and no redirect. -/
def ProtectedRoute (authenticated : Option Bool) : GateRender :=
  let isAuthenticated := jsTruthy authenticated
  if !isAuthenticated then GateRender.unauthorized
  else GateRender.outlet

/-- The Navigation Intent a gate render carries: only the redirect
alternative carries the denied original path; the unauthorized message,
the outlet, and the loading state carry none. -/
def navigationIntentOf : GateRender → Option String
  | GateRender.redirectLogin p => some p
  | _ => none

/-- src/App.tsx lines 14-27: the route table (the star route is the 404
catch-all). There is no login route. -/
def appRoutes : List String := ["/", "/protected", "*"]

/-- A call the Navbar event handlers make back into the adapter: a forced
logout, or a token refresh request with a validity margin in seconds. -/
inductive AdapterCall
  | logout
  | updateToken (marginSeconds : Nat)
deriving DecidableEq

/-- The Navbar component state: the isAuthenticated useState cell (which is
keycloak.authenticated at mount and may therefore be undefined before the
effect runs), together with the list of adapter calls the handlers have
issued, in order. -/
structure NavbarState where
  isAuthenticated : Option Bool
  calls : List AdapterCall
deriving DecidableEq

/-- src/components/Navbar.tsx: updateAuthState = () => setIsAuthenticated(keycloak.authenticated ?? false).
Takes the current adapter flag and recomputes the local cell, with
undefined coalesced to false. -/
def updateAuthState (kcAuthenticated : Option Bool) (s : NavbarState) : NavbarState :=
  { s with isAuthenticated := some (kcAuthenticated.getD false) }

/-- src/components/Navbar.tsx: keycloak.onAuthSuccess = updateAuthState. -/
def onAuthSuccess (kcAuthenticated : Option Bool) (s : NavbarState) : NavbarState :=
  updateAuthState kcAuthenticated s

/-- src/components/Navbar.tsx: keycloak.onAuthLogout = updateAuthState. -/
def onAuthLogout (kcAuthenticated : Option Bool) (s : NavbarState) : NavbarState :=
  updateAuthState kcAuthenticated s

/-- src/components/Navbar.tsx: keycloak.onAuthRefreshSuccess = updateAuthState. -/
def onAuthRefreshSuccess (kcAuthenticated : Option Bool) (s : NavbarState) : NavbarState :=
  updateAuthState kcAuthenticated s

/-- src/components/Navbar.tsx: keycloak.onAuthRefreshError = () => log; keycloak.logout().
The handler issues a logout call; it does not touch the local cell, it does
not request a refresh, and it keeps no guard against firing again. -/
def onAuthRefreshError (_kcAuthenticated : Option Bool) (s : NavbarState) : NavbarState :=
  { s with calls := s.calls ++ [AdapterCall.logout] }

/-- src/components/Navbar.tsx: keycloak.onTokenExpired = () => keycloak.updateToken(30).catch(() => keycloak.logout()).
The handler requests a refresh with a 30-second validity margin; the catch
issues a logout call exactly when that refresh request fails. The refresh
outcome is the refreshFails parameter. -/
def onTokenExpired (refreshFails : Bool) (_kcAuthenticated : Option Bool)
    (s : NavbarState) : NavbarState :=
  let s1 := { s with calls := s.calls ++ [AdapterCall.updateToken 30] }
  if refreshFails then { s1 with calls := s1.calls ++ [AdapterCall.logout] } else s1

/-- An adapter lifecycle event as delivered to the registered handlers. The
token-expired event carries whether the refresh request it triggers fails. -/
inductive KcEvent
  | authSuccess
  | authLogout
  | authRefreshSuccess
  | authRefreshError
  | tokenExpired (refreshFails : Bool)
deriving DecidableEq

/-- Modelled from the spec: the external identity adapter owns its
authenticated flag (spec section 3 and section 6). Per the event contract,
an auth-success event is fired with the flag true and a logout event with
the flag false; the refresh and expiry events fire on an existing session
and do not by themselves rewrite the flag (a refresh failure leads to a
logout call whose completion later fires the logout event). -/
def adapterEffect : KcEvent → Option Bool → Option Bool
  | KcEvent.authSuccess, _ => some true
  | KcEvent.authLogout, _ => some false
  | KcEvent.authRefreshSuccess, a => a
  | KcEvent.authRefreshError, a => a
  | KcEvent.tokenExpired _, a => a

/-- The combined system state: the adapter singleton flag and the Navbar
component state. -/
structure SysState where
  kcAuthenticated : Option Bool
  navbar : NavbarState
deriving DecidableEq

/-- Delivery of one adapter event: the adapter updates its own flag, then
the handler registered for that event in the Navbar effect runs. -/
def stepEvent (s : SysState) (e : KcEvent) : SysState :=
  let kc := adapterEffect e s.kcAuthenticated
  let nb :=
    match e with
    | KcEvent.authSuccess => onAuthSuccess kc s.navbar
    | KcEvent.authLogout => onAuthLogout kc s.navbar
    | KcEvent.authRefreshSuccess => onAuthRefreshSuccess kc s.navbar
    | KcEvent.authRefreshError => onAuthRefreshError kc s.navbar
    | KcEvent.tokenExpired fails => onTokenExpired fails kc s.navbar
  { kcAuthenticated := kc, navbar := nb }

/-- Delivery of a sequence of adapter events, in order. -/
def runEvents (s : SysState) : List KcEvent → SysState
  | [] => s
  | e :: es => runEvents (stepEvent s e) es

/-- src/components/Navbar.tsx lines 12-32: the body of the useEffect on
mount registers the handlers (static, modelled by stepEvent) and then calls
updateAuthState() once as the initial check. -/
def effectFirstRun (s : SysState) : SysState :=
  { s with navbar := updateAuthState s.kcAuthenticated s.navbar }

/-- Counts the logout calls in a call list. -/
def countLogout (cs : List AdapterCall) : Nat :=
  cs.countP fun c =>
    match c with
    | AdapterCall.logout => true
    | _ => false

/-- Counts the token refresh requests in a call list. -/
def countUpdateToken (cs : List AdapterCall) : Nat :=
  cs.countP fun c =>
    match c with
    | AdapterCall.updateToken _ => true
    | _ => false

/-- The environment of spec Scenario D: all three configuration values
missing. -/
def emptyEnv : Env :=
  { VITE_KEYCLOAK_URL := none, VITE_KEYCLOAK_REALM := none,
    VITE_KEYCLOAK_CLIENT_ID := none }

/-- A system state with an authenticated session and no adapter calls
issued yet (spec Scenario C starting point). -/
def authedState : SysState :=
  { kcAuthenticated := some true,
    navbar := { isAuthenticated := some true, calls := [] } }

/-- A Navbar state whose local cell reads false while the adapter flag may
read true: used to observe that a handler does or does not recompute the
cell from the adapter flag. -/
def staleNavbar : NavbarState :=
  { isAuthenticated := some false, calls := [] }

-- Helper lemmas shared by the claim theorems.

theorem countLogout_append (a b : List AdapterCall) :
    countLogout (a ++ b) = countLogout a + countLogout b := by
  simp [countLogout, List.countP_append]

theorem countUpdateToken_append (a b : List AdapterCall) :
    countUpdateToken (a ++ b) = countUpdateToken a + countUpdateToken b := by
  simp [countUpdateToken, List.countP_append]

theorem stepEvent_isSome (s : SysState) (e : KcEvent)
    (h : (s.navbar.isAuthenticated).isSome = true) :
    (((stepEvent s e).navbar.isAuthenticated)).isSome = true := by
  cases e with
  | authSuccess => rfl
  | authLogout => rfl
  | authRefreshSuccess => rfl
  | authRefreshError => exact h
  | tokenExpired fails => cases fails <;> exact h

theorem runEvents_isSome (es : List KcEvent) (s : SysState)
    (h : (s.navbar.isAuthenticated).isSome = true) :
    (((runEvents s es).navbar.isAuthenticated)).isSome = true := by
  induction es generalizing s with
  | nil => exact h
  | cons e es ih => exact ih (stepEvent s e) (stepEvent_isSome s e h)

theorem refreshError_step_calls (s : SysState) :
    (stepEvent s KcEvent.authRefreshError).navbar.calls
      = s.navbar.calls ++ [AdapterCall.logout] := rfl

/-- Claim C1: the claim says a render of the Access Gate before Bootstrap
settles produces the neutral loading state and never the denial outcome.
Counterexample: rendering ProtectedRoute with the flag still in its
unknown-before-init state (undefined) produces the Unauthorized denial
outcome, not a loading state. -/
theorem C1_counterexample :
    ProtectedRoute none = GateRender.unauthorized ∧
    ProtectedRoute none ≠ GateRender.loading := by
  decide

/-- Claim C1 (amended): the Access Gate itself has no loading branch; a
render of it before Bootstrap settles produces the Unauthorized denial.
The neutral-loading guarantee is enforced one level up, in main.tsx: while
init is pending the root shows the loading placeholder, which mounts no
route content and in particular never mounts the Access Gate, so the gate
neither allows nor denies before Bootstrap settles. -/
theorem C1_amended_shell_provides_loading :
    renderMain none = UI.loading ∧
    mountsAccessGate (renderMain none) = false ∧
    hasRouteContent (renderMain none) = false ∧
    ProtectedRoute none = GateRender.unauthorized := by
  decide

/-- Claim C2: the claim says a startup with any configuration value missing
halts with a configuration error and never invokes Bootstrap, and that
missing values are never silently defaulted. Counterexample: with all three
environment values missing, src/keycloak.ts silently substitutes the
compiled-in defaults and the startup sequence still contains the init call
(Bootstrap is invoked). -/
theorem C2_counterexample :
    KeycloakMain.keycloak emptyEnv =
      { url := "http://localhost:7777", realm := "viprealm",
        clientId := "vipclient" } ∧
    countInitCalls (startup emptyEnv (InitOutcome.resolved false)) = 1 := by
  exact ⟨rfl, rfl⟩

/-- Claim C2 (amended): for every environment, startup proceeds and invokes
Bootstrap exactly once; missing values in src/keycloak.ts are silently
replaced by the defaults localhost:7777, viprealm and vipclient; the
src/security/keycloak.ts variant shows an alert when the endpoint is
missing but still constructs the handle with the raw missing values and
does not halt. -/
theorem C2_amended_defaults_and_proceed (env : Env) (o : InitOutcome) :
    countInitCalls (startup env o) = 1 ∧
    KeycloakMain.keycloak emptyEnv =
      { url := "http://localhost:7777", realm := "viprealm",
        clientId := "vipclient" } ∧
    KeycloakSecurity.secAlertShown emptyEnv = true ∧
    KeycloakSecurity.keycloak emptyEnv =
      { url := none, realm := none, clientId := none } := by
  exact ⟨rfl, rfl, rfl, rfl⟩

/-- Claim C3: the claim says the gate on a protected path with
authenticated=false redirects to the login route with a Navigation Intent
capturing the denied path. Counterexample: the gate renders the inline
Unauthorized message, which carries no Navigation Intent, and the app route
table has no login route at all. -/
theorem C3_counterexample :
    ProtectedRoute (some false) = GateRender.unauthorized ∧
    navigationIntentOf (ProtectedRoute (some false)) = none ∧
    "/login" ∉ appRoutes := by
  decide

/-- Claim C3 (amended): after Bootstrap settles with a non-true flag, each
gate render yields the inline Unauthorized denial (once per navigation,
the gate being a pure function of the flag); it performs no redirect and
produces no Navigation Intent; and the deployed Bootstrap policy in
main.tsx is login-required, not check-silent. -/
theorem C3_amended_inline_denial (a : Option Bool) (h : a ≠ some true) :
    ProtectedRoute a = GateRender.unauthorized ∧
    navigationIntentOf (ProtectedRoute a) = none ∧
    mainInitOptions.onLoad = "login-required" := by
  cases a with
  | none => exact ⟨rfl, rfl, rfl⟩
  | some b =>
      cases b with
      | false => exact ⟨rfl, rfl, rfl⟩
      | true => exact absurd rfl h

/-- Witness for the amended claim C3 at the concrete settled-unauthenticated
flag. -/
theorem C3_amended_inline_denial_witness :
    ProtectedRoute (some false) = GateRender.unauthorized ∧
    navigationIntentOf (ProtectedRoute (some false)) = none ∧
    mainInitOptions.onLoad = "login-required" :=
  C3_amended_inline_denial (some false) (by decide)

/-- Claim C4: the claim says a sequence of refresh-failure events issues
the logout call exactly once, with repeated events before logout completes
issuing no duplicates. Counterexample: starting from an authenticated
session, two refresh-failure events with no intervening logout completion
issue two logout calls, because onAuthRefreshError has no once-guard. -/
theorem C4_counterexample :
    countLogout (runEvents authedState
        [KcEvent.authRefreshError, KcEvent.authRefreshError]).navbar.calls = 2 ∧
    countLogout (runEvents authedState
        [KcEvent.authRefreshError, KcEvent.authRefreshError]).navbar.calls ≠ 1 := by
  decide

/-- Claim C4 (amended): every refresh-failure event issues exactly one
logout call and never retries the refresh: a run of n refresh-failure
events issues exactly n logout calls (one per event, so duplicates do
occur when events repeat before logout completes) and zero token refresh
requests. -/
theorem C4_amended_one_logout_per_event (s : SysState) (n : Nat) :
    countLogout (runEvents s
        (List.replicate n KcEvent.authRefreshError)).navbar.calls
      = countLogout s.navbar.calls + n ∧
    countUpdateToken (runEvents s
        (List.replicate n KcEvent.authRefreshError)).navbar.calls
      = countUpdateToken s.navbar.calls := by
  induction n generalizing s with
  | zero => exact ⟨rfl, rfl⟩
  | succ k ih =>
      rw [List.replicate_succ]
      have h := ih (stepEvent s KcEvent.authRefreshError)
      constructor
      · have h1 := h.1
        rw [show runEvents s (KcEvent.authRefreshError ::
              List.replicate k KcEvent.authRefreshError)
            = runEvents (stepEvent s KcEvent.authRefreshError)
                (List.replicate k KcEvent.authRefreshError) from rfl, h1,
          refreshError_step_calls, countLogout_append]
        have hone : countLogout [AdapterCall.logout] = 1 := rfl
        rw [hone]
        omega
      · have h2 := h.2
        rw [show runEvents s (KcEvent.authRefreshError ::
              List.replicate k KcEvent.authRefreshError)
            = runEvents (stepEvent s KcEvent.authRefreshError)
                (List.replicate k KcEvent.authRefreshError) from rfl, h2,
          refreshError_step_calls, countUpdateToken_append]
        have hz : countUpdateToken [AdapterCall.logout] = 0 := rfl
        rw [hz]
        omega

/-- Claim C5: while the init outcome is pending the UI shows only the
neutral loading placeholder and no route content; route content (the App
with its Routes) appears only once the init promise has settled, here on
the resolved outcome. -/
theorem C5_loading_until_settled (b : Bool) :
    renderMain none = UI.loading ∧
    hasRouteContent (renderMain none) = false ∧
    hasRouteContent (renderMain (some (InitOutcome.resolved b))) = true := by
  cases b <;> exact ⟨rfl, rfl, rfl⟩

/-- Claim C6: when init fails, the catch-branch renders the visible error
panel with its heading (not the blank-free loading placeholder and not
route content), and the startup sequence contains exactly one init call for
every environment and outcome, so there is no automatic retry. -/
theorem C6_error_panel_no_retry (env : Env) (o : InitOutcome) :
    renderMain (some InitOutcome.rejected)
      = UI.errorPanel "Error Initializing Keycloak" ∧
    renderMain (some InitOutcome.rejected) ≠ UI.loading ∧
    hasRouteContent (renderMain (some InitOutcome.rejected)) = false ∧
    countInitCalls (startup env o) = 1 := by
  exact ⟨rfl, by decide, rfl, rfl⟩

/-- Claim C7: handling an auth-success event leaves the locally observed
flag true, and handling a logout event leaves it false; the handlers run on
the delivered event, no page reload being part of the transition. -/
theorem C7_flag_tracks_auth_events (s : SysState) :
    (stepEvent s KcEvent.authSuccess).navbar.isAuthenticated = some true ∧
    (stepEvent s KcEvent.authLogout).navbar.isAuthenticated = some false :=
  ⟨rfl, rfl⟩

/-- Claim C8: on every token-expiry event the watcher requests a refresh
with the 30-second validity margin, and the logout call is appended exactly
when that refresh request fails: the failing case issues the refresh
request then the logout, the succeeding case issues the refresh request
only. -/
theorem C8_expiry_refresh_then_logout_iff_fail (s : SysState) :
    (stepEvent s (KcEvent.tokenExpired true)).navbar.calls
      = s.navbar.calls ++ [AdapterCall.updateToken 30, AdapterCall.logout] ∧
    (stepEvent s (KcEvent.tokenExpired false)).navbar.calls
      = s.navbar.calls ++ [AdapterCall.updateToken 30] := by
  constructor
  · show (s.navbar.calls ++ [AdapterCall.updateToken 30])
        ++ [AdapterCall.logout] = _
    simp
  · rfl

/-- Claim C9: rendering the guard with the flag still undefined takes the
same branch as with the flag false and yields the inline Unauthorized
message: the uninitialized and unauthenticated states are indistinguishable
at the gate interface. -/
theorem C9_undefined_equals_false :
    ProtectedRoute none = ProtectedRoute (some false) ∧
    ProtectedRoute none = GateRender.unauthorized := by
  decide

/-- Claim C10: the claim says every event handler recomputes the local flag
as the adapter flag coerced with undefined mapped to false. Counterexample:
the refresh-error handler leaves the local cell untouched; with the adapter
flag true and the local cell false, the handler keeps false where the
claimed recomputation yields true. -/
theorem C10_counterexample :
    (onAuthRefreshError (some true) staleNavbar).isAuthenticated = some false ∧
    (updateAuthState (some true) staleNavbar).isAuthenticated = some true ∧
    (onAuthRefreshError (some true) staleNavbar).isAuthenticated
      ≠ some ((some true : Option Bool).getD false) := by
  decide

/-- Claim C10 (amended): after the mount effect first runs its initial
updateAuthState, the locally observed flag is a definite boolean (isSome)
and stays so under every sequence of handled events; the auth-success,
logout and refresh-success handlers recompute it as the adapter flag with
undefined coalesced to false, while the refresh-error and token-expired
handlers leave it unchanged. -/
theorem C10_amended_definite_after_effect (s : SysState) (es : List KcEvent)
    (kc : Option Bool) (t : NavbarState) :
    (((runEvents (effectFirstRun s) es).navbar.isAuthenticated)).isSome = true ∧
    (onAuthSuccess kc t).isAuthenticated = some (kc.getD false) ∧
    (onAuthLogout kc t).isAuthenticated = some (kc.getD false) ∧
    (onAuthRefreshSuccess kc t).isAuthenticated = some (kc.getD false) ∧
    (onAuthRefreshError kc t).isAuthenticated = t.isAuthenticated ∧
    (onTokenExpired true kc t).isAuthenticated = t.isAuthenticated ∧
    (onTokenExpired false kc t).isAuthenticated = t.isAuthenticated := by
  refine ⟨?_, rfl, rfl, rfl, rfl, rfl, rfl⟩
  exact runEvents_isSome es (effectFirstRun s) rfl
